import Mathlib

/-!
Verification of the PhysicalExerciceGuidance core pipeline.

Shallow embedding of:
  - `src/core/geometry.py`        (`angle_between`)
  - `src/core/exercises.py`       (`FeedbackRule`, `Exercise`, `_register`, `REGISTRY`)
  - `src/detection/rep_counter.py` (`RepCounter`)
  - `src/detection/yolo_detector.py` (`_COCO_TO_MP`, `YOLODetector.detect`)
  - `src/camera/camera_thread.py` (`CameraThread._process_frame`)

Python floats are modelled as real numbers where transcendental functions
occur (`numpy.arccos`), and as rationals elsewhere so that threshold
comparisons stay decidable.  The rep counter, feedback rules and exercise
record are generic over a linear order, matching Python's duck typing:
the camera pipeline instantiates them at ℝ, the standalone claims at ℚ.
-/

namespace PhysEx

/-! ## Geometry (`src/core/geometry.py`)

`angle_between(a, b, c)`:
    va = np.array(a) - np.array(b)
    vc = np.array(c) - np.array(b)
    cos_theta = np.dot(va, vc) / (np.linalg.norm(va) * np.linalg.norm(vc) + 1e-8)
    return float(np.degrees(np.arccos(np.clip(cos_theta, -1.0, 1.0))))
-/

/-- 2-D vector subtraction, `np.array(a) - np.array(b)` on `[x, y]` pairs. -/
def vsub (a b : ℝ × ℝ) : ℝ × ℝ := (a.1 - b.1, a.2 - b.2)

/-- `np.dot` on 2-D vectors. -/
def dot2 (u v : ℝ × ℝ) : ℝ := u.1 * v.1 + u.2 * v.2

/-- `np.linalg.norm` on a 2-D vector (Euclidean norm). -/
noncomputable def norm2 (u : ℝ × ℝ) : ℝ := Real.sqrt (u.1 * u.1 + u.2 * u.2)

/-- `np.clip(x, lo, hi)` = `min(hi, max(lo, x))`. -/
def clip (x lo hi : ℝ) : ℝ := min hi (max lo x)

/-- `np.degrees`: radians to degrees. -/
noncomputable def degrees (r : ℝ) : ℝ := r * 180 / Real.pi

/-- The epsilon added to the norm product in `angle_between`. -/
def EPS : ℝ := 1e-8

/-- `geometry.angle_between`: the angle in degrees at vertex `b` of the
triangle `a`-`b`-`c`. -/
noncomputable def angle_between (a b c : ℝ × ℝ) : ℝ :=
  let va := vsub a b
  let vc := vsub c b
  let cos_theta := dot2 va vc / (norm2 va * norm2 vc + EPS)
  degrees (Real.arccos (clip cos_theta (-1) 1))

/-! ## Landmark slot constants (`src/core/landmarks.py`) -/

def LEFT_SHOULDER : ℕ := 11
def LEFT_ELBOW : ℕ := 13
def LEFT_WRIST : ℕ := 15
def LEFT_HIP : ℕ := 23
def LEFT_KNEE : ℕ := 25
def LEFT_ANKLE : ℕ := 27

/-! ## Exercises and feedback (`src/core/exercises.py`) -/

/-- `exercises.FeedbackRule`: a single feedback message triggered within an
angle range. -/
structure FeedbackRule (α : Type) where
  angle_min : α
  angle_max : α
  message : String
  color : String
deriving DecidableEq

/-- `FeedbackRule.matches`: `self.angle_min <= angle < self.angle_max`. -/
def FeedbackRule.matches [LinearOrder α] (r : FeedbackRule α) (angle : α) : Bool :=
  r.angle_min ≤ angle ∧ angle < r.angle_max

/-- `exercises.Exercise`: immutable description of one exercise. -/
structure Exercise (α : Type) where
  id : ℕ
  name : String
  joint : ℕ × ℕ × ℕ
  down_max : α
  up_min : α
  tip : String
  feedback : List (FeedbackRule α)
deriving DecidableEq

/-- The `for rule in self.feedback` loop body of `Exercise.get_feedback`. -/
def findRule [LinearOrder α] (angle : α) : List (FeedbackRule α) → Option (FeedbackRule α)
  | [] => none
  | r :: rs => if r.matches angle then some r else findRule angle rs

/-- `Exercise.get_feedback`: linear scan of the rule list, first match wins,
`None` when no rule matches. -/
def Exercise.get_feedback [LinearOrder α] (ex : Exercise α) (angle : α) :
    Option (FeedbackRule α) :=
  findRule angle ex.feedback

/-! ## Rep counter (`src/detection/rep_counter.py`) -/

/-- `rep_counter.RepCounter`: two-state machine counting repetitions.
The `state` field is a string (`"UP"` / `"DOWN"`) exactly as in the source. -/
structure RepCounter (α : Type) where
  exercise : Exercise α
  reps : ℕ
  state : String
deriving DecidableEq

/-- The dataclass field defaults: `reps = 0`, `state = "UP"`. -/
def RepCounter.init (ex : Exercise α) : RepCounter α :=
  { exercise := ex, reps := 0, state := "UP" }

/-- `RepCounter.update`: feed the current joint angle; returns the updated
counter and whether a new rep was just completed.  Mirrors the two
sequential `if`s of the source (the second one observes the state possibly
just written by the first). -/
def RepCounter.update [LinearOrder α] (c : RepCounter α) (angle : α) :
    RepCounter α × Bool :=
  let c1 := if angle < c.exercise.down_max ∧ c.state = "UP"
            then { c with state := "DOWN" } else c
  if angle > c1.exercise.up_min ∧ c1.state = "DOWN"
  then ({ c1 with state := "UP", reps := c1.reps + 1 }, true)
  else (c1, false)

/-- `RepCounter.reset`: reset rep count and state to initial values. -/
def RepCounter.reset (c : RepCounter α) : RepCounter α :=
  { c with reps := 0, state := "UP" }

/-- Feed a sequence of angle samples through `update`, one per frame. -/
def RepCounter.runSeq [LinearOrder α] (c : RepCounter α) (angles : List α) :
    RepCounter α :=
  angles.foldl (fun acc a => (acc.update a).1) c

/-- A client-visible operation on a `RepCounter` (the only two mutators). -/
inductive Op (α : Type) where
  | update (angle : α)
  | reset

/-- Apply one operation. -/
def applyOp [LinearOrder α] (c : RepCounter α) : Op α → RepCounter α
  | Op.update a => (c.update a).1
  | Op.reset => c.reset

/-- Apply a sequence of operations. -/
def applyOps [LinearOrder α] (c : RepCounter α) (ops : List (Op α)) : RepCounter α :=
  ops.foldl applyOp c

/-! ## The registry (`src/core/exercises.py`, module level)

`REGISTRY` is a Python dict keyed by `ex.id`; `_register` performs
`REGISTRY[ex.id] = ex`, i.e. replace-in-place when the key exists, append
otherwise.  The nine `Exercise(...)` literals passed to the nine
module-level `_register` calls are named here so theorems can refer to
them; their field values are copied verbatim from the source. -/

/-- `REGISTRY[ex.id] = ex` on an association list modelling the dict. -/
def _register (r : List (ℕ × Exercise ℚ)) (ex : Exercise ℚ) : List (ℕ × Exercise ℚ) :=
  if (r.lookup ex.id).isSome
  then r.map (fun p => if p.1 = ex.id then (ex.id, ex) else p)
  else r ++ [(ex.id, ex)]

def squatEx : Exercise ℚ :=
  { id := 0, name := "Squat",
    joint := (LEFT_HIP, LEFT_KNEE, LEFT_ANKLE),
    down_max := 100, up_min := 160,
    tip := "Keep your back straight and knees over toes.",
    feedback := [
      ⟨0,   100, "✓ Good depth!",        "#22c55e"⟩,
      ⟨100, 160, "↓ Go lower — aim 90°", "#f59e0b"⟩,
      ⟨160, 180, "↑ Stand up fully",      "#94a3b8"⟩] }

def bicepCurlEx : Exercise ℚ :=
  { id := 1, name := "Bicep Curl",
    joint := (LEFT_SHOULDER, LEFT_ELBOW, LEFT_WRIST),
    down_max := 60, up_min := 140,
    tip := "Keep your elbow close to your torso.",
    feedback := [
      ⟨0,   60,  "✓ Good curl!",           "#22c55e"⟩,
      ⟨60,  140, "↕ Full range of motion",  "#f59e0b"⟩,
      ⟨140, 180, "✓ Good extension!",       "#22c55e"⟩] }

def pushUpEx : Exercise ℚ :=
  { id := 2, name := "Push-up",
    joint := (LEFT_SHOULDER, LEFT_ELBOW, LEFT_WRIST),
    down_max := 90, up_min := 160,
    tip := "Keep your core tight and body straight.",
    feedback := [
      ⟨0,   90,  "✓ Good depth!",           "#22c55e"⟩,
      ⟨90,  160, "↓ Lower your chest more", "#f59e0b"⟩,
      ⟨160, 180, "↑ Push up fully",         "#94a3b8"⟩] }

def lateralRaiseEx : Exercise ℚ :=
  { id := 3, name := "Lateral Raise",
    joint := (LEFT_HIP, LEFT_SHOULDER, LEFT_ELBOW),
    down_max := 40, up_min := 80,
    tip := "Raise to shoulder height with slight elbow bend.",
    feedback := [
      ⟨0,   40,  "↑ Raise to shoulder level", "#f59e0b"⟩,
      ⟨40,  80,  "↕ Keep going",               "#f59e0b"⟩,
      ⟨80,  180, "✓ Good height!",              "#22c55e"⟩] }

def overheadPressEx : Exercise ℚ :=
  { id := 4, name := "Overhead Press",
    joint := (LEFT_ELBOW, LEFT_SHOULDER, LEFT_HIP),
    down_max := 80, up_min := 160,
    tip := "Press directly overhead. Keep core braced.",
    feedback := [
      ⟨0,   80,  "↑ Press all the way up!", "#f59e0b"⟩,
      ⟨80,  160, "↕ Keep pressing",          "#f59e0b"⟩,
      ⟨160, 180, "✓ Full lockout!",          "#22c55e"⟩] }

def tricepExtensionEx : Exercise ℚ :=
  { id := 5, name := "Tricep Extension",
    joint := (LEFT_SHOULDER, LEFT_ELBOW, LEFT_WRIST),
    down_max := 70, up_min := 155,
    tip := "Keep upper arm vertical. Only the forearm should move.",
    feedback := [
      ⟨0,   70,  "✓ Good stretch!",         "#22c55e"⟩,
      ⟨70,  155, "↕ Full range of motion",  "#f59e0b"⟩,
      ⟨155, 180, "✓ Full extension!",       "#22c55e"⟩] }

def frontRaiseEx : Exercise ℚ :=
  { id := 6, name := "Front Raise",
    joint := (LEFT_HIP, LEFT_SHOULDER, LEFT_ELBOW),
    down_max := 50, up_min := 85,
    tip := "Raise arm to shoulder height. Avoid using momentum.",
    feedback := [
      ⟨0,   50,  "↑ Raise to shoulder level", "#f59e0b"⟩,
      ⟨50,  85,  "↕ Almost there",             "#f59e0b"⟩,
      ⟨85,  180, "✓ Good height!",             "#22c55e"⟩] }

def lungeEx : Exercise ℚ :=
  { id := 7, name := "Lunge",
    joint := (LEFT_HIP, LEFT_KNEE, LEFT_ANKLE),
    down_max := 95, up_min := 165,
    tip := "Step forward so front knee stays above ankle.",
    feedback := [
      ⟨0,   95,  "✓ Good lunge depth!", "#22c55e"⟩,
      ⟨95,  165, "↓ Lower your back knee", "#f59e0b"⟩,
      ⟨165, 180, "↑ Stand up fully",     "#94a3b8"⟩] }

def shoulderTapEx : Exercise ℚ :=
  { id := 8, name := "Shoulder Tap",
    joint := (LEFT_SHOULDER, LEFT_ELBOW, LEFT_WRIST),
    down_max := 100, up_min := 160,
    tip := "From plank, tap opposite shoulder. Keep hips level.",
    feedback := [
      ⟨0,   100, "✓ Arm bent — tap!",       "#22c55e"⟩,
      ⟨100, 160, "↕ Transition",             "#94a3b8"⟩,
      ⟨160, 180, "✓ Arm extended — plank!", "#22c55e"⟩] }

/-- The module-level `REGISTRY` after the nine `_register` calls have run. -/
def REGISTRY : List (ℕ × Exercise ℚ) :=
  [squatEx, bicepCurlEx, pushUpEx, lateralRaiseEx, overheadPressEx,
   tricepExtensionEx, frontRaiseEx, lungeEx, shoulderTapEx].foldl _register []

/-! ## Keypoints (`src/detection/keypoint.py`) -/

/-- `keypoint.Keypoint`: normalised 2-D pose keypoint.  Coordinates and
visibility are rationals (Python floats with decidable comparisons). -/
structure Keypoint where
  x : ℚ
  y : ℚ
  visibility : ℚ
deriving DecidableEq

instance : Inhabited Keypoint := ⟨⟨0, 0, 0⟩⟩

/-- `config.MIN_LANDMARK_VISIBILITY`: landmarks below this visibility are
considered out-of-frame. -/
def MIN_LANDMARK_VISIBILITY : ℚ := 0.6

/-- `geometry.landmark_xy`: extract `[lm.x, lm.y]` from the landmark list
(as an ℝ pair, the form consumed by `angle_between`). -/
def landmark_xy (landmarks : List Keypoint) (idx : ℕ) : ℝ × ℝ :=
  let lm := landmarks.getD idx default
  ((lm.x : ℝ), (lm.y : ℝ))

/-! ## Per-frame processing (`src/camera/camera_thread.py`,
`CameraThread._process_frame`)

The drawing and signal plumbing are I/O; what is modelled is the data the
method computes and emits each frame: the angle, the feedback message and
colour, and the rep counter it leaves behind (whose `reps` and `state` are
emitted via `stats_updated` / `state_changed`).  The `try`/`except` block
can only fail at the `landmarks[j]` indexing (an `IndexError` when a joint
index is out of range), which the model makes explicit with a bounds
check; the `except` branch sets the "Move into frame" message and leaves
`angle` and the counter untouched.  Python's `if landmarks:` is falsy for
both `None` and the empty list. -/

/-- The data `_process_frame` emits for one frame. -/
structure FrameOut where
  angle : ℝ
  feedback_msg : String
  feedback_color : String
  counter : RepCounter ℝ

/-- One call of `CameraThread._process_frame`, given the active exercise,
the current rep counter and the detector's output for the frame. -/
noncomputable def processFrame (ex : Exercise ℝ) (ctr : RepCounter ℝ)
    (landmarks : Option (List Keypoint)) : FrameOut :=
  let lms := landmarks.getD []
  if lms.isEmpty then
    { angle := 0, feedback_msg := "", feedback_color := "#94a3b8", counter := ctr }
  else
    let j0 := ex.joint.1
    let j1 := ex.joint.2.1
    let j2 := ex.joint.2.2
    if j0 < lms.length ∧ j1 < lms.length ∧ j2 < lms.length then
      let v0 := (lms.getD j0 default).visibility
      let v1 := (lms.getD j1 default).visibility
      let v2 := (lms.getD j2 default).visibility
      if min (min v0 v1) v2 < MIN_LANDMARK_VISIBILITY then
        { angle := 0, feedback_msg := "⚠ Keep full body in frame",
          feedback_color := "#ef4444", counter := ctr }
      else
        let A := landmark_xy lms j0
        let B := landmark_xy lms j1
        let C := landmark_xy lms j2
        let angle := angle_between A B C
        let ctr2 := (ctr.update angle).1
        match ex.get_feedback angle with
        | some rule =>
          { angle := angle, feedback_msg := rule.message,
            feedback_color := rule.color, counter := ctr2 }
        | none =>
          { angle := angle, feedback_msg := "",
            feedback_color := "#94a3b8", counter := ctr2 }
    else
      { angle := 0, feedback_msg := "Move into frame",
        feedback_color := "#94a3b8", counter := ctr }

/-! ## YOLO backend (`src/detection/yolo_detector.py`)

A detected person carries 17 COCO keypoints: pixel coordinates
(`res.keypoints.xy[i]`) and per-keypoint confidences (`res.keypoints.conf[i]`).
`detect` picks the person with the highest mean keypoint confidence
(`conf.mean(dim=1).argmax()`; `torch.argmax` returns the first index of the
maximum) and scatters its keypoints into the 33-slot MediaPipe layout. -/

/-- One detected person from the YOLO model: 17 pixel coordinates and
confidences. -/
structure Person where
  xy : Fin 17 → ℚ × ℚ
  conf : Fin 17 → ℚ

/-- `res.keypoints.conf.mean(dim=1)` for one person. -/
def meanConf (p : Person) : ℚ := (∑ i, p.conf i) / 17

/-- First index of the maximum of a list (`torch.argmax` semantics);
`0` on the empty list (unreachable in `detect`). -/
def argmaxIdx : List ℚ → ℕ
  | [] => 0
  | [_] => 0
  | x :: y :: rest =>
    let j := argmaxIdx (y :: rest)
    if x < (y :: rest).getD j 0 then j + 1 else 0

/-- `_COCO_TO_MP`: the COCO-17 → MediaPipe-33 slot mapping, in the
source's dict order. -/
def _COCO_TO_MP : List (Fin 17 × ℕ) :=
  [(0, 0), (1, 2), (2, 5), (3, 7), (4, 8), (5, 11), (6, 12), (7, 13),
   (8, 14), (9, 15), (10, 16), (11, 23), (12, 24), (13, 25), (14, 26),
   (15, 27), (16, 28)]

/-- The output-building loop of `detect`: start from 33 copies of
`Keypoint(0, 0, 0)` and assign every mapped slot from the chosen person,
normalising pixel coordinates by `max(w, 1)` / `max(h, 1)`. -/
def buildOut (p : Person) (w h : ℕ) : List Keypoint :=
  _COCO_TO_MP.foldl
    (fun out cm =>
      out.set cm.2
        { x := (p.xy cm.1).1 / (max w 1 : ℕ),
          y := (p.xy cm.1).2 / (max h 1 : ℕ),
          visibility := p.conf cm.1 })
    (List.replicate 33 default)

/-- `conf.mean(dim=1).argmax()`: index of the person with the highest mean
keypoint confidence. -/
def bestIdx (persons : List Person) : ℕ := argmaxIdx (persons.map meanConf)

/-- `YOLODetector.detect` on a frame of size `w × h`, given the list of
detected persons (empty when `res.keypoints` holds no detection). -/
def detect (persons : List Person) (w h : ℕ) : Option (List Keypoint) :=
  match persons with
  | [] => none
  | p0 :: rest =>
    some (buildOut ((p0 :: rest).getD (bestIdx (p0 :: rest)) p0) w h)

/-- A malformed exercise entry: `down_max = 160 ≥ 100 = up_min`. -/
def badEx : Exercise ℚ :=
  { id := 99, name := "Bad", joint := (0, 1, 2), down_max := 160, up_min := 100,
    tip := "", feedback := [] }

/-- A second malformed entry, with `down_max = up_min` (boundary case). -/
def badEx2 : Exercise ℚ :=
  { id := 98, name := "AlsoBad", joint := (0, 1, 2), down_max := 120, up_min := 120,
    tip := "", feedback := [] }

/-! ## Theorems -/

/-- C1: for the exercise with `down_max = 100`, `up_min = 160` (the squat),
from the initial state `{reps := 0, state := "UP"}`: `[170, 90, 170]` yields
one rep ending in `"UP"`; `[170, 120, 130, 170]` yields zero reps;
`[170, 90, 120, 90, 170]` yields one rep. -/
theorem C1_rep_counter_traces :
    ((RepCounter.init squatEx).runSeq [170, 90, 170]).reps = 1 ∧
    ((RepCounter.init squatEx).runSeq [170, 90, 170]).state = "UP" ∧
    ((RepCounter.init squatEx).runSeq [170, 120, 130, 170]).reps = 0 ∧
    ((RepCounter.init squatEx).runSeq [170, 90, 120, 90, 170]).reps = 1 := by
  decide

/-- C2: with `down_max < up_min`, an angle strictly inside the deadband
changes nothing and returns `False`; and `update` returns `True` exactly on
the rep-incrementing DOWN→UP transition (`angle > up_min` while in state
`"DOWN"`). -/
theorem C2_deadband_and_return (c : RepCounter ℚ)
    (hlt : c.exercise.down_max < c.exercise.up_min)
    (hst : c.state = "UP" ∨ c.state = "DOWN") (angle : ℚ) :
    (c.exercise.down_max < angle → angle < c.exercise.up_min →
      c.update angle = (c, false)) ∧
    ((c.update angle).2 = true ↔
      (c.state = "DOWN" ∧ c.exercise.up_min < angle)) := by
  constructor
  · intro h1 h2
    have hA : ¬(angle < c.exercise.down_max ∧ c.state = "UP") :=
      fun h => absurd h.1 (not_lt.mpr h1.le)
    have hB : ¬(angle > c.exercise.up_min ∧ c.state = "DOWN") :=
      fun h => absurd h.1 (not_lt.mpr h2.le)
    simp only [RepCounter.update, if_neg hA, if_neg hB]
  · by_cases hA : angle < c.exercise.down_max ∧ c.state = "UP"
    · have hup : ¬(c.exercise.up_min < angle) :=
        not_lt.mpr (hA.1.trans hlt).le
      simp only [RepCounter.update, if_pos hA]
      rw [if_neg (by simpa using hup)]
      constructor
      · intro h; exact absurd h Bool.false_ne_true
      · rintro ⟨hdown, hu⟩
        rw [hA.2] at hdown
        exact absurd hdown (by decide)
    · simp only [RepCounter.update, if_neg hA]
      by_cases hB : angle > c.exercise.up_min ∧ c.state = "DOWN"
      · rw [if_pos hB]; simp only [true_iff]; exact ⟨hB.2, hB.1⟩
      · rw [if_neg hB]
        constructor
        · intro h; exact absurd h Bool.false_ne_true
        · rintro ⟨hdown, hup⟩; exact absurd ⟨hup, hdown⟩ hB

/-- Helper: one `update` keeps the state inside `{"UP", "DOWN"}`. -/
lemma update_state_closed [LinearOrder α] (c : RepCounter α) (a : α)
    (h : c.state = "UP" ∨ c.state = "DOWN") :
    ((c.update a).1.state = "UP" ∨ (c.update a).1.state = "DOWN") := by
  simp only [RepCounter.update]
  split_ifs <;> simp_all

/-- Helper: `update` never touches the `exercise` field. -/
lemma update_exercise_eq [LinearOrder α] (c : RepCounter α) (a : α) :
    (c.update a).1.exercise = c.exercise := by
  simp only [RepCounter.update]
  split_ifs <;> rfl

/-- Helper: one operation preserves the state/exercise invariant. -/
lemma applyOp_inv [LinearOrder α] (c : RepCounter α) (op : Op α)
    (h : c.state = "UP" ∨ c.state = "DOWN") :
    ((applyOp c op).state = "UP" ∨ (applyOp c op).state = "DOWN") ∧
    (applyOp c op).exercise = c.exercise := by
  cases op with
  | update a => exact ⟨update_state_closed c a h, update_exercise_eq c a⟩
  | reset => exact ⟨Or.inl rfl, rfl⟩

/-- Helper: any operation sequence preserves the state/exercise invariant. -/
lemma applyOps_inv [LinearOrder α] (c : RepCounter α) (ops : List (Op α))
    (h : c.state = "UP" ∨ c.state = "DOWN") :
    ((applyOps c ops).state = "UP" ∨ (applyOps c ops).state = "DOWN") ∧
    (applyOps c ops).exercise = c.exercise := by
  induction ops generalizing c with
  | nil => exact ⟨h, rfl⟩
  | cons op ops ih =>
    have h1 := applyOp_inv c op h
    have h2 := ih (applyOp c op) h1.1
    exact ⟨h2.1, h2.2.trans h1.2⟩

/-- C10: implicit `RepCounter` invariants.  After any sequence of
`update`/`reset` calls from the initial state, the state is `"UP"` or
`"DOWN"` and the exercise is unchanged; every single `update` changes
`reps` by at most one, never decreases it, and increments it by exactly one
iff it returns `True`; `reset` zeroes `reps`, restores `"UP"` and keeps the
exercise. -/
theorem C10_rep_counter_invariants (ex : Exercise ℚ) (ops : List (Op ℚ))
    (c : RepCounter ℚ) (a : ℚ) :
    ((applyOps (RepCounter.init ex) ops).state = "UP" ∨
      (applyOps (RepCounter.init ex) ops).state = "DOWN") ∧
    (applyOps (RepCounter.init ex) ops).exercise = ex ∧
    (c.update a).1.exercise = c.exercise ∧
    c.reps ≤ (c.update a).1.reps ∧
    ((c.update a).1.reps = c.reps ∨ (c.update a).1.reps = c.reps + 1) ∧
    ((c.update a).1.reps = c.reps + 1 ↔ (c.update a).2 = true) ∧
    (c.reset.reps = 0 ∧ c.reset.state = "UP" ∧ c.reset.exercise = c.exercise) := by
  have hinv := applyOps_inv (RepCounter.init ex) ops (Or.inl rfl)
  refine ⟨hinv.1, hinv.2, update_exercise_eq c a, ?_, ?_, ?_, rfl, rfl, rfl⟩
  · simp only [RepCounter.update]
    split_ifs <;> simp
  · simp only [RepCounter.update]
    split_ifs <;> simp
  · simp only [RepCounter.update]
    split_ifs <;> simp

/-- C6: `get_feedback` returns the first rule (list order) whose half-open
interval `[angle_min, angle_max)` contains the angle, `none` when no rule
matches; for the Push-up rule ranges `[0,90) [90,160) [160,180)`, angle 90
matches the second rule, not the first. -/
theorem C6_feedback_first_match :
    (∀ (ex : Exercise ℚ) (angle : ℚ),
        ex.get_feedback angle = ex.feedback.find? (fun r => r.matches angle)) ∧
    (REGISTRY.lookup 2).map (fun e => e.get_feedback 90) =
      some (some ⟨90, 160, "↓ Lower your chest more", "#f59e0b"⟩) := by
  constructor
  · intro ex angle
    show findRule angle ex.feedback = _
    induction ex.feedback with
    | nil => rfl
    | cons r rs ih =>
      cases hm : r.matches angle with
      | true => simp [findRule, List.find?, hm]
      | false => simp [findRule, List.find?, hm, ih]
  · decide

/-- C3 counterexample: registering an exercise whose thresholds violate
`down_max < up_min` is not rejected — `_register` stores it and a lookup
returns it as a fully usable record. -/
theorem C3_counterexample :
    ¬(badEx.down_max < badEx.up_min) ∧
    (_register REGISTRY badEx).lookup 99 = some badEx := by
  decide

/-- C3 (amended): neither `Exercise` construction nor `_register` validates
the thresholds — a malformed entry (here with `down_max = up_min`) registers
successfully; the invariant `down_max < up_min` nevertheless holds for every
entry of the shipped `REGISTRY`. -/
theorem C3_no_validation_registry_ok :
    (_register REGISTRY badEx2).lookup 98 = some badEx2 ∧
    REGISTRY.all (fun p => decide (p.2.down_max < p.2.up_min)) = true := by
  decide

/-- Witness for C2 at a concrete input: the squat counter in its initial
state, fed the deadband angle 120, is unchanged and reports no rep. -/
theorem C2_deadband_and_return_witness :
    (RepCounter.init squatEx).update 120 = (RepCounter.init squatEx, false) :=
  (C2_deadband_and_return (RepCounter.init squatEx) (by decide) (Or.inl rfl) 120).1
    (by decide) (by decide)

/-- Helper: the clipped cosine stays strictly below 1 when its input does,
so the resulting angle in degrees is strictly positive. -/
lemma degrees_arccos_pos (x : ℝ) (h : x < 1) :
    0 < degrees (Real.arccos (clip x (-1) 1)) := by
  have hclip : clip x (-1) 1 < 1 := by
    have hmax : max (-1 : ℝ) x < 1 := max_lt (by norm_num) h
    exact lt_of_le_of_lt (min_le_right _ _) hmax
  have harc : 0 < Real.arccos (clip x (-1) 1) := Real.arccos_pos.mpr hclip
  have : 0 < Real.arccos (clip x (-1) 1) * 180 := by positivity
  exact div_pos this Real.pi_pos

/-- Helper: degrees of an arccos is nonnegative. -/
lemma degrees_arccos_nonneg (x : ℝ) : 0 ≤ degrees (Real.arccos x) :=
  div_nonneg (mul_nonneg (Real.arccos_nonneg x) (by norm_num)) Real.pi_pos.le

/-- Helper: degrees of an arccos is at most 180. -/
lemma degrees_arccos_le_180 (x : ℝ) : degrees (Real.arccos x) ≤ 180 := by
  unfold degrees
  rw [div_le_iff Real.pi_pos]
  nlinarith [Real.arccos_le_pi x, Real.pi_pos]

/-- C7: `angle_between` is total and its value always lies in `[0, 180]`
(the arccos of the clipped cosine lies in `[0, π]`, and the conversion to
degrees maps that interval onto `[0, 180]`). -/
theorem C7_angle_total_range (a b c : ℝ × ℝ) :
    0 ≤ angle_between a b c ∧ angle_between a b c ≤ 180 :=
  ⟨degrees_arccos_nonneg _, degrees_arccos_le_180 _⟩

/-- C8 counterexample: at `A = C = (1, 0)`, `B = (0, 0)` the result is not
`0.0`: the cosine is `1 / (1 + 1e-8) < 1`, so the arccos is strictly
positive. -/
theorem C8_counterexample : angle_between (1, 0) (0, 0) (1, 0) ≠ 0 := by
  have h1 : norm2 (vsub (1, 0) (0, 0)) = 1 := by
    simp [norm2, vsub, Real.sqrt_one]
  have h2 : dot2 (vsub (1, 0) (0, 0)) (vsub (1, 0) (0, 0)) = 1 := by
    norm_num [dot2, vsub]
  have hlt : dot2 (vsub (1, 0) (0, 0)) (vsub (1, 0) (0, 0)) /
      (norm2 (vsub (1, 0) (0, 0)) * norm2 (vsub (1, 0) (0, 0)) + EPS) < 1 := by
    rw [h1, h2, EPS]
    rw [div_lt_one (by norm_num)]
    norm_num
  exact ne_of_gt (degrees_arccos_pos _ hlt)

/-- C8 (amended): the right-angle case returns exactly `90.0`; but for
`A = C ≠ B` the result is strictly positive, not `0.0` — the `1e-8`
epsilon in the denominator keeps the cosine strictly below 1, so the
arccos never vanishes. -/
theorem C8_right_angle_and_degenerate :
    angle_between (1, 0) (0, 0) (0, 1) = 90 ∧
    ∀ (a b : ℝ × ℝ), a ≠ b → 0 < angle_between a b a := by
  constructor
  · have hdot : dot2 (vsub (1, 0) (0, 0)) (vsub (0, 1) (0, 0)) = 0 := by
      norm_num [dot2, vsub]
    show degrees (Real.arccos (clip
        (dot2 (vsub (1, 0) (0, 0)) (vsub (0, 1) (0, 0)) /
          (norm2 (vsub (1, 0) (0, 0)) * norm2 (vsub (0, 1) (0, 0)) + EPS))
        (-1) 1)) = 90
    rw [hdot, zero_div]
    have hclip : clip 0 (-1) 1 = 0 := by
      unfold clip
      rw [max_eq_right (by norm_num), min_eq_right (by norm_num)]
    rw [hclip, Real.arccos_zero]
    unfold degrees
    field_simp
    ring
  · intro a b hab
    have h0 : ¬((vsub a b).1 = 0 ∧ (vsub a b).2 = 0) := by
      rintro ⟨h1, h2⟩
      apply hab
      simp only [vsub, sub_eq_zero] at h1 h2
      exact Prod.ext h1 h2
    have hd : 0 < dot2 (vsub a b) (vsub a b) := by
      rcases not_and_or.mp h0 with h | h
      · have hpos : 0 < (vsub a b).1 * (vsub a b).1 := mul_self_pos.mpr h
        have hnn : 0 ≤ (vsub a b).2 * (vsub a b).2 := mul_self_nonneg _
        unfold dot2
        linarith
      · have hpos : 0 < (vsub a b).2 * (vsub a b).2 := mul_self_pos.mpr h
        have hnn : 0 ≤ (vsub a b).1 * (vsub a b).1 := mul_self_nonneg _
        unfold dot2
        linarith
    have hEPS : (0 : ℝ) < EPS := by norm_num [EPS]
    have hsq : norm2 (vsub a b) * norm2 (vsub a b) = dot2 (vsub a b) (vsub a b) := by
      unfold norm2 dot2
      exact Real.mul_self_sqrt
        (by nlinarith [mul_self_nonneg (vsub a b).1, mul_self_nonneg (vsub a b).2])
    have hlt : dot2 (vsub a b) (vsub a b) /
        (norm2 (vsub a b) * norm2 (vsub a b) + EPS) < 1 := by
      rw [hsq, div_lt_one (by linarith)]
      linarith
    exact degrees_arccos_pos _ hlt

/-- Witness for C8's amended degenerate part: at `A = C = (2, 3)`,
`B = (0, 0)` the angle is strictly positive. -/
theorem C8_right_angle_and_degenerate_witness :
    0 < angle_between (2, 3) (0, 0) (2, 3) :=
  C8_right_angle_and_degenerate.2 (2, 3) (0, 0) (by
    intro hcontra
    have := congrArg Prod.fst hcontra
    norm_num at this)

/-- C9: `angle_between` is symmetric in its outer arguments: the dot
product and the product of norms are both symmetric in `va`/`vc`. -/
theorem C9_angle_symmetric (a b c : ℝ × ℝ) :
    angle_between a b c = angle_between c b a := by
  have hdot : dot2 (vsub a b) (vsub c b) = dot2 (vsub c b) (vsub a b) := by
    unfold dot2; ring
  have hnorm : norm2 (vsub a b) * norm2 (vsub c b) =
      norm2 (vsub c b) * norm2 (vsub a b) := mul_comm _ _
  show degrees (Real.arccos (clip
      (dot2 (vsub a b) (vsub c b) /
        (norm2 (vsub a b) * norm2 (vsub c b) + EPS)) (-1) 1)) =
    degrees (Real.arccos (clip
      (dot2 (vsub c b) (vsub a b) /
        (norm2 (vsub c b) * norm2 (vsub a b) + EPS)) (-1) 1))
  rw [hdot, hnorm]

/-- C4: when the detector returns a pose and any of the active exercise's
three joints has visibility strictly below `MIN_LANDMARK_VISIBILITY = 0.6`,
the frame step emits the fixed occlusion warning (message and colour) with
angle 0 and leaves the rep counter untouched (`update` is not reached). -/
theorem C4_visibility_guard (ex : Exercise ℝ) (ctr : RepCounter ℝ)
    (lms : List Keypoint)
    (h0 : ex.joint.1 < lms.length)
    (h1 : ex.joint.2.1 < lms.length)
    (h2 : ex.joint.2.2 < lms.length)
    (hvis : (lms.getD ex.joint.1 default).visibility < MIN_LANDMARK_VISIBILITY ∨
            (lms.getD ex.joint.2.1 default).visibility < MIN_LANDMARK_VISIBILITY ∨
            (lms.getD ex.joint.2.2 default).visibility < MIN_LANDMARK_VISIBILITY) :
    processFrame ex ctr (some lms) =
      { angle := 0, feedback_msg := "⚠ Keep full body in frame",
        feedback_color := "#ef4444", counter := ctr } := by
  have hne : ¬(lms.isEmpty = true) := by
    cases lms with
    | nil => simp at h0
    | cons x xs => simp
  have hmin : min (min (lms.getD ex.joint.1 default).visibility
        (lms.getD ex.joint.2.1 default).visibility)
      (lms.getD ex.joint.2.2 default).visibility < MIN_LANDMARK_VISIBILITY := by
    rcases hvis with hv | hv | hv
    · exact lt_of_le_of_lt ((min_le_left _ _).trans (min_le_left _ _)) hv
    · exact lt_of_le_of_lt ((min_le_left _ _).trans (min_le_right _ _)) hv
    · exact lt_of_le_of_lt (min_le_right _ _) hv
  simp only [processFrame, Option.getD_some]
  rw [if_neg hne, if_pos ⟨h0, h1, h2⟩, if_pos hmin]

/-- A minimal exercise used as the concrete input of the C4 witness. -/
def wEx : Exercise ℝ :=
  { id := 0, name := "W", joint := (0, 1, 2), down_max := 100, up_min := 160,
    tip := "", feedback := [] }

/-- A three-landmark pose whose middle joint is occluded (visibility 1/2). -/
def wLms : List Keypoint := [⟨0, 0, 1⟩, ⟨0, 0, 1/2⟩, ⟨0, 0, 1⟩]

/-- Witness for C4 at a concrete input: the occluded middle joint triggers
the guard and the counter is returned unchanged. -/
theorem C4_visibility_guard_witness :
    processFrame wEx (RepCounter.init wEx) (some wLms) =
      { angle := 0, feedback_msg := "⚠ Keep full body in frame",
        feedback_color := "#ef4444", counter := RepCounter.init wEx } :=
  C4_visibility_guard wEx (RepCounter.init wEx) wLms
    (by norm_num [wEx, wLms]) (by norm_num [wEx, wLms]) (by norm_num [wEx, wLms])
    (Or.inr (Or.inl (by
      norm_num [wEx, wLms, MIN_LANDMARK_VISIBILITY,
        List.getD_cons_succ, List.getD_cons_zero])))

/-- Helper: `argmaxIdx` of a nonempty list is a valid index. -/
lemma argmaxIdx_lt_length (l : List ℚ) (h : l ≠ []) : argmaxIdx l < l.length := by
  induction l with
  | nil => exact absurd rfl h
  | cons x xs ih =>
    cases xs with
    | nil => simp [argmaxIdx]
    | cons y rest =>
      simp only [argmaxIdx]
      split_ifs with hx
      · have := ih (by simp)
        simpa [Nat.succ_lt_succ_iff] using this
      · simp

/-- Helper: the value at `argmaxIdx` dominates every element. -/
lemma argmaxIdx_is_max (l : List ℚ) :
    ∀ j < l.length, l.getD j 0 ≤ l.getD (argmaxIdx l) 0 := by
  induction l with
  | nil => intro j hj; simp at hj
  | cons x xs ih =>
    cases xs with
    | nil =>
      intro j hj
      simp only [List.length_cons, List.length_nil] at hj
      cases j with
      | zero => simp [argmaxIdx]
      | succ j' => omega
    | cons y rest =>
      intro j hj
      simp only [argmaxIdx]
      by_cases hx : x < (y :: rest).getD (argmaxIdx (y :: rest)) 0
      · rw [if_pos hx]
        cases j with
        | zero => simpa using hx.le
        | succ j' =>
          have hj' : j' < (y :: rest).length := by simpa using hj
          simpa using ih j' hj'
      · rw [if_neg hx]
        push_neg at hx
        cases j with
        | zero => simp
        | succ j' =>
          have hj' : j' < (y :: rest).length := by simpa using hj
          have := (ih j' hj').trans hx
          simpa using this

/-- Helper: `argmaxIdx` returns the first maximal index: every earlier
element is strictly smaller. -/
lemma argmaxIdx_first (l : List ℚ) :
    ∀ j < argmaxIdx l, l.getD j 0 < l.getD (argmaxIdx l) 0 := by
  induction l with
  | nil => intro j hj; simp [argmaxIdx] at hj
  | cons x xs ih =>
    cases xs with
    | nil => intro j hj; simp [argmaxIdx] at hj
    | cons y rest =>
      intro j hj
      simp only [argmaxIdx] at hj ⊢
      by_cases hx : x < (y :: rest).getD (argmaxIdx (y :: rest)) 0
      · rw [if_pos hx] at hj ⊢
        cases j with
        | zero => simpa using hx
        | succ j' =>
          have hj'' : j' < argmaxIdx (y :: rest) := Nat.lt_of_succ_lt_succ hj
          simpa using ih j' hj''
      · rw [if_neg hx] at hj
        exact absurd hj (Nat.not_lt_zero j)

/-- The keypoint `detect` writes for COCO index `c` of person `p`. -/
def kpOf (p : Person) (w h : ℕ) (c : Fin 17) : Keypoint :=
  { x := (p.xy c).1 / (max w 1 : ℕ), y := (p.xy c).2 / (max h 1 : ℕ),
    visibility := p.conf c }

set_option maxHeartbeats 1000000 in
/-- Helper: the 17 `out[mp_i] = ...` assignments of `detect`, fully
evaluated: the 33-slot output with every mapped slot filled and every
other slot left at `Keypoint(0, 0, 0)`. -/
lemma buildOut_eq (p : Person) (w h : ℕ) :
    buildOut p w h =
      [kpOf p w h 0, ⟨0,0,0⟩, kpOf p w h 1, ⟨0,0,0⟩, ⟨0,0,0⟩, kpOf p w h 2,
       ⟨0,0,0⟩, kpOf p w h 3, kpOf p w h 4, ⟨0,0,0⟩, ⟨0,0,0⟩, kpOf p w h 5,
       kpOf p w h 6, kpOf p w h 7, kpOf p w h 8, kpOf p w h 9, kpOf p w h 10,
       ⟨0,0,0⟩, ⟨0,0,0⟩, ⟨0,0,0⟩, ⟨0,0,0⟩, ⟨0,0,0⟩, ⟨0,0,0⟩,
       kpOf p w h 11, kpOf p w h 12, kpOf p w h 13, kpOf p w h 14,
       kpOf p w h 15, kpOf p w h 16, ⟨0,0,0⟩, ⟨0,0,0⟩, ⟨0,0,0⟩, ⟨0,0,0⟩] := by
  rfl

/-- C5: every accepted (nonempty) YOLO detection yields exactly 33
keypoints; every slot in the COCO→MediaPipe table carries the selected
person's coordinate normalised by `max(w,1)` / `max(h,1)` together with
its confidence; every slot outside the table is exactly `{0, 0, 0}`; and
the selected person is the one of highest mean keypoint confidence, the
first such in array order on ties. -/
theorem C5_yolo_normalization (p0 : Person) (rest : List Person) (w h : ℕ) :
    detect (p0 :: rest) w h =
      some (buildOut ((p0 :: rest).getD (bestIdx (p0 :: rest)) p0) w h) ∧
    (buildOut ((p0 :: rest).getD (bestIdx (p0 :: rest)) p0) w h).length = 33 ∧
    (∀ cm ∈ _COCO_TO_MP,
      (buildOut ((p0 :: rest).getD (bestIdx (p0 :: rest)) p0) w h).get? cm.2 =
        some ⟨(((p0 :: rest).getD (bestIdx (p0 :: rest)) p0).xy cm.1).1 / (max w 1 : ℕ),
              (((p0 :: rest).getD (bestIdx (p0 :: rest)) p0).xy cm.1).2 / (max h 1 : ℕ),
              ((p0 :: rest).getD (bestIdx (p0 :: rest)) p0).conf cm.1⟩) ∧
    (∀ m < 33, m ∉ _COCO_TO_MP.map Prod.snd →
      (buildOut ((p0 :: rest).getD (bestIdx (p0 :: rest)) p0) w h).get? m =
        some ⟨0, 0, 0⟩) ∧
    bestIdx (p0 :: rest) < (p0 :: rest).length ∧
    (∀ j < (p0 :: rest).length,
      ((p0 :: rest).map meanConf).getD j 0 ≤
        ((p0 :: rest).map meanConf).getD (bestIdx (p0 :: rest)) 0) ∧
    (∀ j < bestIdx (p0 :: rest),
      ((p0 :: rest).map meanConf).getD j 0 <
        ((p0 :: rest).map meanConf).getD (bestIdx (p0 :: rest)) 0) := by
  refine ⟨rfl, by rw [buildOut_eq]; rfl, ?_, ?_, ?_, ?_, ?_⟩
  · intro cm hcm
    rw [buildOut_eq]
    fin_cases hcm <;> rfl
  · intro m hm hnot
    rw [buildOut_eq]
    interval_cases m <;> first
      | rfl
      | exact absurd (by decide) hnot
  · have := argmaxIdx_lt_length ((p0 :: rest).map meanConf) (by simp)
    simpa [bestIdx] using this
  · intro j hj
    exact argmaxIdx_is_max ((p0 :: rest).map meanConf) j (by simpa using hj)
  · intro j hj
    exact argmaxIdx_first ((p0 :: rest).map meanConf) j hj

/-- The concrete person used by the C5 witness. -/
def wPerson : Person := { xy := fun i => ((i : ℚ), 0), conf := fun _ => 1 }

/-- Witness for C5 at a concrete input: slot 1 (an unmapped slot) of the
single-person detection is exactly `{0, 0, 0}`. -/
theorem C5_yolo_normalization_witness :
    (buildOut (([wPerson] : List Person).getD (bestIdx [wPerson]) wPerson) 1 1).get? 1 =
      some ⟨0, 0, 0⟩ :=
  (C5_yolo_normalization wPerson [] 1 1).2.2.2.1 1 (by decide) (by decide)

end PhysEx
